import Mathlib

/-!
Shallow embedding of the Pomodoro-Timer application core (src/main.py):
the persistent study-time counter, the task store operations, the
recurrence expander, and the Pomodoro cycle engine state machine.
All definitions are translated from the source; machine integers are
modelled as `Int`, wall-clock instants and Python floats as `ℚ`.
-/

namespace Pomodoro

/-- Python `int(float(q))`: truncation toward zero
(floor for non-negative values, ceiling for negative ones). -/
def pyInt (q : ℚ) : Int := if 0 ≤ q then ⌊q⌋ else ⌈q⌉

/-- A JSON value stored under a key of the study-time file, as the code
consumes it via `int(float(v or 0))`.  `num q` stands for a JSON number or
a numeric string (both convert through `float`); `badstr` for a value on
which `float` raises; `null` for JSON null and the other falsy values,
which `v or 0` turns into `0`. -/
inductive JVal where
  | null : JVal
  | num : ℚ → JVal
  | badstr : JVal
deriving DecidableEq, Repr

/-- `int(float(v or 0))` wrapped in `try/except` (exception yields 0),
as in `load_study_time` (src/main.py:43,50). -/
def coerceInt : JVal → Int
  | .null => 0
  | .num q => pyInt q
  | .badstr => 0

/-- The persisted study-time file: missing, unreadable or corrupt JSON, or
a JSON object with the optional keys `total_seconds` and `total_minutes`
(in that order). -/
inductive StudyFile where
  | missing : StudyFile
  | corrupt : StudyFile
  | data : Option JVal → Option JVal → StudyFile
deriving DecidableEq, Repr

/-- `save_study_time(seconds)` (src/main.py:64-71): writes
`{'total_seconds': max(0, int(float(seconds or 0)))}` (the input is already
an integer, so the float round-trip is the identity). -/
def save_study_time (seconds : Int) : StudyFile :=
  .data (some (.num ((max 0 seconds : Int) : ℚ))) none

/-- `load_study_time()` (src/main.py:34-62): returns the stored total in
seconds together with the file state afterwards (the legacy minutes key is
migrated by rewriting the file through `save_study_time`).  The
`total_seconds` key is checked first and wins when both keys are present.
Totality of the definition models that the function never raises. -/
def load_study_time : StudyFile → Int × StudyFile
  | .missing => (0, .missing)
  | .corrupt => (0, .corrupt)
  | .data (some v) m => (max 0 (coerceInt v), .data (some v) m)
  | .data none (some v) =>
      let secs := max 0 (coerceInt v) * 60
      (secs, save_study_time secs)
  | .data none none => (0, .data none none)

/-- `add_study_time(seconds)` (src/main.py:73-77): load the current total,
add, save; returns the new total and the file afterwards. -/
def add_study_time (f : StudyFile) (seconds : Int) : Int × StudyFile :=
  let new_total := (load_study_time f).1 + seconds
  (new_total, save_study_time new_total)

/-- The `recurring` column: one of the strings 'None', 'Daily', 'Weekly'
(`null` stands for 'None' and for the falsy values the guard
`if not recurring or recurring == 'None'` also rejects). -/
inductive Recurring where
  | null : Recurring
  | daily : Recurring
  | weekly : Recurring
deriving DecidableEq, Repr

/-- A due-date string as `_handle_recurring` consumes it
(src/main.py:1752-1753): `good t` stands for a string that
`datetime.strptime(s.split('.')[0], '%Y-%m-%dT%H:%M:%S')` parses to the
instant `t` (seconds since an epoch; on naive datetimes `timedelta`
arithmetic is uniform in seconds, and `isoformat` round-trips the
instant), `bad` for a string on which parsing raises. -/
inductive DueRaw where
  | good : Int → DueRaw
  | bad : DueRaw
deriving DecidableEq, Repr

/-- A row of the `tasks` table (src/main.py:102-111 plus the columns
added at src/main.py:114-125).  Timestamp strings are modelled as
instants in seconds. -/
structure Task where
  id : Int
  title : String
  category : String
  completed : Bool
  duedate : Option DueRaw
  subtasks : String
  started_at : Option Int
  completed_at : Option Int
  priority : String
  tags : String
  recurring : Recurring
  pomodoros : Int
  last_pomodoro_at : Option Int
deriving DecidableEq, Repr

/-- The rowid SQLite assigns to a new `tasks` row (`INTEGER PRIMARY
KEY`): one more than the largest existing id. -/
def nextId (store : List Task) : Int :=
  (store.map Task.id).foldr max 0 + 1

/-- `add_task(...)` (src/main.py:140-152): inserts a new row with
completed = 0, pomodoros = 0, started_at = now, completed_at = NULL and
last_pomodoro_at = NULL. -/
def add_task (now : Int) (store : List Task) (title category : String)
    (duedate : Option DueRaw) (subtasks priority tags : String)
    (recurring : Recurring) : List Task :=
  store ++ [{ id := nextId store, title := title, category := category,
              completed := false, duedate := duedate, subtasks := subtasks,
              started_at := some now, completed_at := none,
              priority := priority, tags := tags, recurring := recurring,
              pomodoros := 0, last_pomodoro_at := none }]

/-- `complete_task_db(task_id)` (src/main.py:167-176):
`UPDATE tasks SET completed = 1, completed_at = now WHERE id = task_id`,
unconditionally on the matching rows. -/
def complete_task_db (now : Int) (task_id : Int) (store : List Task) :
    List Task :=
  store.map fun t =>
    if t.id = task_id
    then { t with completed := true, completed_at := some now }
    else t

/-- The next due date computed inside `_handle_recurring`
(src/main.py:1750-1761): parse the stored due date (or take now when
there is none), add one day (86400 s) for Daily or one week (604800 s)
for Weekly; on a parse failure the `except` leaves it None. -/
def next_due (now : Int) (duedate : Option DueRaw)
    (recurring : Recurring) : Option DueRaw :=
  match duedate with
  | some (.good d) =>
      match recurring with
      | .daily => some (.good (d + 86400))
      | .weekly => some (.good (d + 604800))
      | .null => none
  | some .bad => none
  | none =>
      match recurring with
      | .daily => some (.good (now + 86400))
      | .weekly => some (.good (now + 604800))
      | .null => none

/-- `TaskTracker._handle_recurring(task_row)` (src/main.py:1745-1764):
for a recurring row, compute the next due date and then unconditionally
insert the successor via `add_task`, cloning title, category, subtasks,
priority, tags and recurrence. -/
def handle_recurring (now : Int) (store : List Task) (row : Task) :
    List Task :=
  if row.recurring = .null then store
  else
    add_task now store row.title row.category
      (next_due now row.duedate row.recurring)
      row.subtasks row.priority row.tags row.recurring

/-- `TaskTracker.complete_task` (src/main.py:1614-1620) applied to a
selected row: complete it in the store, then run the recurrence expander
on the row as it was read before completion. -/
def complete_task (now : Int) (store : List Task) (row : Task) :
    List Task :=
  handle_recurring now (complete_task_db now row.id store) row

/-- The successor row `_handle_recurring` inserts into store `st` for
original row `row` with computed due date `dd`. -/
def successorOf (now : Int) (st : List Task) (row : Task)
    (dd : Option DueRaw) : Task :=
  { id := nextId st, title := row.title, category := row.category,
    completed := false, duedate := dd, subtasks := row.subtasks,
    started_at := some now, completed_at := none,
    priority := row.priority, tags := row.tags,
    recurring := row.recurring, pomodoros := 0,
    last_pomodoro_at := none }

/-- A concrete already-completed task (completed, completedAt = 5). -/
def doneTask : Task :=
  { id := 1, title := "read", category := "Study", completed := true,
    duedate := none, subtasks := "", started_at := some 0,
    completed_at := some 5, priority := "Medium", tags := "",
    recurring := .null, pomodoros := 0, last_pomodoro_at := none }

/-- A concrete daily-recurring task whose stored due date does not
parse. -/
def badDueTask : Task :=
  { id := 1, title := "water plants", category := "Home",
    completed := false, duedate := some .bad, subtasks := "",
    started_at := some 0, completed_at := none, priority := "Medium",
    tags := "", recurring := .daily, pomodoros := 0,
    last_pomodoro_at := none }

/-- A concrete daily-recurring task with a parseable due date. -/
def dailyTask : Task :=
  { id := 3, title := "journal", category := "Personal",
    completed := false, duedate := some (.good 100), subtasks := "a,b",
    started_at := some 0, completed_at := none, priority := "High",
    tags := "habit", recurring := .daily, pomodoros := 2,
    last_pomodoro_at := none }

/-- The timer configuration held by `SettingsManager`
(src/main.py:202-225): durations in seconds plus the long-break cadence.
The constructor and `set_from_minutes` only ever produce durations ≥ 60
and a cadence ≥ 1. -/
structure Settings where
  focus_secs : Int
  short_break_secs : Int
  long_break_secs : Int
  long_break_every : Int
deriving DecidableEq, Repr

/-- The defaults of `SettingsManager.__init__` (src/main.py:203-207). -/
def defaultSettings : Settings :=
  { focus_secs := 25 * 60, short_break_secs := 5 * 60,
    long_break_secs := 15 * 60, long_break_every := 4 }

/-- `SettingsManager.set_from_minutes` (src/main.py:209-213): each
minutes input coerced to at least 1 and scaled to seconds; the cadence
coerced to at least 1. -/
def set_from_minutes (focus_m short_m long_m every_n : Int) : Settings :=
  { focus_secs := max 1 focus_m * 60,
    short_break_secs := max 1 short_m * 60,
    long_break_secs := max 1 long_m * 60,
    long_break_every := max 1 every_n }

/-- The engine phases 'Focus', 'Short Break', 'Long Break'. -/
inductive Phase where
  | Focus : Phase
  | ShortBreak : Phase
  | LongBreak : Phase
deriving DecidableEq, Repr

/-- Observer callbacks and side effects the engine emits: the
`on_phase_change` and `on_tick` callbacks (phase and remaining seconds;
the formatted mm:ss string is a pure function of the latter and is
omitted), the `on_complete_cycle` callback, the notification sound, and
the task-store pomodoro increment. -/
inductive Event where
  | phaseChange : Phase → Int → Event
  | tickEv : Phase → Int → Event
  | completeCycle : Phase → Event
  | sound : Event
  | incPomodoro : Int → Event
deriving DecidableEq, Repr

/-- The `PomodoroManager` state (src/main.py:397-411) together with the
study-time file its flushes write through `add_study_time`.  Wall-clock
instants (`datetime.now()`) and the float `total_session_time` are
rationals in seconds. -/
structure PState where
  phase : Phase
  remaining : Int
  is_running : Bool
  completed_focus_count : Int
  attached_task_id : Option Int
  session_start_time : Option ℚ
  total_session_time : ℚ
  file : StudyFile
deriving DecidableEq, Repr

/-- `PomodoroManager.__init__` (src/main.py:397-411) over file state f:
phase Focus with the configured focus duration, stopped, zero counts,
nothing attached, no open accrual window. -/
def initState (cfg : Settings) (f : StudyFile) : PState :=
  { phase := .Focus, remaining := cfg.focus_secs, is_running := false,
    completed_focus_count := 0, attached_task_id := none,
    session_start_time := none, total_session_time := 0, file := f }

/-- The durable study-time counter as the engine state sees it. -/
def studyCounter (s : PState) : Int := (load_study_time s.file).1

/-- `PomodoroManager.attach_task` (src/main.py:413-414). -/
def attach_task (s : PState) (task_id : Int) : PState :=
  { s with attached_task_id := some task_id }

/-- `PomodoroManager._reset_phase_duration` (src/main.py:480-486). -/
def reset_phase_duration (cfg : Settings) (s : PState) : PState :=
  { s with remaining :=
      match s.phase with
      | .Focus => cfg.focus_secs
      | .ShortBreak => cfg.short_break_secs
      | .LongBreak => cfg.long_break_secs }

/-- The accrual-flush block repeated verbatim in `save_current_session`
(src/main.py:418-424), `pause` (439-445) and `switch_phase` (463-469):
if the phase is Focus and a window is open, add the wall-clock elapsed
time to `total_session_time` and close the window; then, if the pending
total is positive, commit its integer truncation via `add_study_time`
and zero it. -/
def flushFocusWindow (now : ℚ) (s : PState) : PState :=
  match s.session_start_time with
  | some t0 =>
      if s.phase = .Focus then
        let total := s.total_session_time + (now - t0)
        if 0 < total then
          { s with
              session_start_time := none,
              total_session_time := 0,
              file := (add_study_time s.file (pyInt total)).2 }
        else
          { s with
              session_start_time := none,
              total_session_time := total }
      else s
  | none => s

/-- `PomodoroManager.save_current_session` (src/main.py:416-424). -/
def save_current_session (now : ℚ) (s : PState) : PState :=
  flushFocusWindow now s

/-- `PomodoroManager.start` (src/main.py:426-433): no-op when running;
reload the phase duration when the countdown is spent; start the tick;
open an accrual window when entering Focus without one. -/
def start (cfg : Settings) (now : ℚ) (s : PState) : PState :=
  if s.is_running then s
  else
    let s1 := if s.remaining ≤ 0 then reset_phase_duration cfg s else s
    let s2 := { s1 with is_running := true }
    if s2.phase = .Focus ∧ s2.session_start_time = none then
      { s2 with session_start_time := some now }
    else s2

/-- `PomodoroManager.pause` (src/main.py:435-445): no-op when not
running; stop the tick and run the flush block. -/
def pause (now : ℚ) (s : PState) : PState :=
  if s.is_running then flushFocusWindow now { s with is_running := false }
  else s

/-- The first block of `PomodoroManager.reset` (src/main.py:448-451):
close an open Focus accrual window into the pending total without
flushing it. -/
def closeFocusWindow (now : ℚ) (s : PState) : PState :=
  match s.session_start_time with
  | some t0 =>
      if s.phase = .Focus then
        { s with
            total_session_time := s.total_session_time + (now - t0),
            session_start_time := none }
      else s
  | none => s

/-- The second block of `PomodoroManager.reset` (src/main.py:453-455):
commit a positive pending total via `add_study_time` and zero it. -/
def flushPending (s : PState) : PState :=
  if 0 < s.total_session_time then
    { s with
        file := (add_study_time s.file (pyInt s.total_session_time)).2,
        total_session_time := 0 }
  else s

/-- `PomodoroManager.reset` (src/main.py:447-460): close any open Focus
window, flush a positive pending total, call `pause`, force the phase
back to Focus with the configured focus duration, and notify observers
of the phase change. -/
def reset (cfg : Settings) (now : ℚ) (s : PState) : PState × List Event :=
  let s3 := pause now (flushPending (closeFocusWindow now s))
  ({ s3 with phase := .Focus, remaining := cfg.focus_secs },
   [.phaseChange .Focus cfg.focus_secs])

/-- `PomodoroManager.switch_phase` (src/main.py:462-478): run the flush
block, set the target phase with its configured duration, notify the
phase change; when the engine was running the tick restarts and, if the
new phase is Focus, a fresh accrual window opens. -/
def switch_phase (cfg : Settings) (now : ℚ) (target : Phase)
    (s : PState) : PState × List Event :=
  let s1 := flushFocusWindow now s
  let s2 := reset_phase_duration cfg { s1 with phase := target }
  let evs := [Event.phaseChange s2.phase s2.remaining]
  let s3 :=
    if s2.is_running then
      if s2.phase = .Focus then { s2 with session_start_time := some now }
      else s2
    else s2
  (s3, evs)

/-- `PomodoroManager._handle_phase_end` (src/main.py:500-527): sound
cue; on a Focus end increment the focus count, route a pomodoro
increment to the attached task (truthy ids only) and flush an open
window with no positivity guard; pick the next phase (LongBreak when
the completed count is a multiple of the cadence, ShortBreak otherwise;
Focus after either break), load its duration, notify the phase change
and then cycle completion. -/
def handle_phase_end (cfg : Settings) (now : ℚ) (s : PState) :
    PState × List Event :=
  let focusEnd :=
    if s.phase = .Focus then
      let sA := { s with
        completed_focus_count := s.completed_focus_count + 1 }
      let evs :=
        match sA.attached_task_id with
        | some tid => if tid = 0 then [] else [Event.incPomodoro tid]
        | none => []
      let sB :=
        match sA.session_start_time with
        | some t0 =>
            let total := sA.total_session_time + (now - t0)
            { sA with
                session_start_time := none,
                total_session_time := 0,
                file := (add_study_time sA.file (pyInt total)).2 }
        | none => sA
      (sB, evs)
    else (s, ([] : List Event))
  let s1 := focusEnd.1
  let s2 :=
    if s1.phase = .Focus then
      if s1.completed_focus_count % cfg.long_break_every = 0 then
        { s1 with phase := .LongBreak }
      else { s1 with phase := .ShortBreak }
    else { s1 with phase := .Focus }
  let s3 := reset_phase_duration cfg s2
  (s3, [Event.sound] ++ focusEnd.2
        ++ [Event.phaseChange s3.phase s3.remaining,
            Event.completeCycle s3.phase])

/-- `PomodoroManager._tick` (src/main.py:492-498): when the countdown
is spent handle the phase end, otherwise decrement and notify. -/
def tick (cfg : Settings) (now : ℚ) (s : PState) : PState × List Event :=
  if s.remaining ≤ 0 then handle_phase_end cfg now s
  else
    let s1 := { s with remaining := s.remaining - 1 }
    (s1, [Event.tickEv s1.phase s1.remaining])

/-- The trajectory of successive phase ends in a run with no reset and
no manual phase switch: the n-th phase-end transition applied at the
wall-clock instants `times`. -/
def runEnds (cfg : Settings) (times : Nat -> ℚ) (s : PState) :
    Nat → PState
  | 0 => s
  | n + 1 => (handle_phase_end cfg (times n) (runEnds cfg times s n)).1

/-- A concrete running Focus state: window opened at time 0, half a
second already pending, a task attached, over a missing counter file. -/
def runningFocus : PState :=
  { phase := .Focus, remaining := 10, is_running := true,
    completed_focus_count := 0, attached_task_id := some 7,
    session_start_time := some 0, total_session_time := 1/2,
    file := .missing }

/-- A concrete Focus state whose countdown is spent. -/
def spentFocus : PState :=
  { phase := .Focus, remaining := 0, is_running := true,
    completed_focus_count := 2, attached_task_id := none,
    session_start_time := none, total_session_time := 0,
    file := .missing }

theorem pyInt_intCast (n : Int) : pyInt (n : ℚ) = n := by
  unfold pyInt
  split <;> simp

theorem pyInt_nonneg {q : ℚ} (h : 0 ≤ q) : 0 ≤ pyInt q := by
  unfold pyInt
  rw [if_pos h]
  exact Int.floor_nonneg.mpr h

theorem load_study_time_nonneg (f : StudyFile) : 0 ≤ (load_study_time f).1 := by
  rcases f with _ | _ | ⟨s, m⟩
  · simp [load_study_time]
  · simp [load_study_time]
  · rcases s with _ | v
    · rcases m with _ | v
      · simp [load_study_time]
      · simp only [load_study_time]
        positivity
    · simp [load_study_time]

theorem load_save_study_time (n : Int) :
    load_study_time (save_study_time n) = (max 0 n, save_study_time n) := by
  simp only [load_study_time, save_study_time, coerceInt, pyInt_intCast,
    Prod.mk.injEq]
  exact ⟨by omega, trivial⟩

theorem counter_after_add (f : StudyFile) (n : Int) (hn : 0 ≤ n) :
    (load_study_time (add_study_time f n).2).1 = (load_study_time f).1 + n := by
  have h0 := load_study_time_nonneg f
  simp only [add_study_time, load_save_study_time]
  omega

/-- C5: a file holding only the legacy minutes key with value m ≥ 0 loads
as m * 60 seconds and is rewritten in the seconds representation with that
value; loading the rewritten file returns the same value and leaves the
file unchanged (the migration happens at most once and is idempotent
thereafter); and when both keys are present the seconds key wins (the
result is that of a file holding only the seconds key, and no rewrite
happens). -/
theorem legacy_minutes_migration (m : Int) (hm : 0 ≤ m) :
    (load_study_time (.data none (some (.num (m : ℚ))))).1 = m * 60
    ∧ (load_study_time (.data none (some (.num (m : ℚ))))).2
        = .data (some (.num ((m * 60 : Int) : ℚ))) none
    ∧ load_study_time (.data (some (.num ((m * 60 : Int) : ℚ))) none)
        = (m * 60, .data (some (.num ((m * 60 : Int) : ℚ))) none)
    ∧ (∀ a b, (load_study_time (.data (some a) (some b))).1
        = (load_study_time (.data (some a) none)).1)
    ∧ (∀ a b, (load_study_time (.data (some a) (some b))).2
        = .data (some a) (some b)) := by
  have hmax : max 0 m = m := max_eq_right hm
  have hm60 : max 0 (m * 60) = m * 60 := max_eq_right (by positivity)
  have hco : coerceInt (.num (m : ℚ)) = m := pyInt_intCast m
  have hL : load_study_time (.data none (some (.num (m : ℚ))))
      = (m * 60, save_study_time (m * 60)) := by
    show (max 0 (coerceInt (.num (m : ℚ))) * 60,
          save_study_time (max 0 (coerceInt (.num (m : ℚ))) * 60))
        = (m * 60, save_study_time (m * 60))
    rw [hco, hmax]
  refine ⟨?_, ?_, ?_, ?_, ?_⟩
  · rw [hL]
  · rw [hL]
    simp only [save_study_time, hm60]
  · have hco60 : coerceInt (.num ((m * 60 : Int) : ℚ)) = m * 60 :=
      pyInt_intCast (m * 60)
    show (max 0 (coerceInt (.num ((m * 60 : Int) : ℚ))),
          StudyFile.data (some (.num ((m * 60 : Int) : ℚ))) none)
        = (m * 60, .data (some (.num ((m * 60 : Int) : ℚ))) none)
    rw [hco60, hm60]
  · intro a b
    simp [load_study_time]
  · intro a b
    simp [load_study_time]

/-- C5 witness: the spec example, a legacy file `{total_minutes: 5}`
loads as 300 and persists as `{total_seconds: 300}`. -/
theorem legacy_minutes_migration_witness :
    (load_study_time (.data none (some (.num ((5 : Int) : ℚ))))).1 = 5 * 60
    ∧ (load_study_time (.data none (some (.num ((5 : Int) : ℚ))))).2
        = .data (some (.num ((5 * 60 : Int) : ℚ))) none :=
  ⟨(legacy_minutes_migration 5 (by decide)).1,
   (legacy_minutes_migration 5 (by decide)).2.1⟩

/-- C6: saving a non-negative total n and loading returns exactly n. -/
theorem save_load_roundtrip (n : Int) (hn : 0 ≤ n) :
    (load_study_time (save_study_time n)).1 = n := by
  rw [load_save_study_time]
  exact max_eq_right hn

/-- C6 witness: the round-trip at n = 300. -/
theorem save_load_roundtrip_witness :
    (load_study_time (save_study_time 300)).1 = 300 :=
  save_load_roundtrip 300 (by decide)

/-- C7: load is total (never raises) and never returns a negative value;
a missing or unreadable file, a non-numeric or null stored value all load
as 0; a negative stored value (under either key) is clamped to 0. -/
theorem load_robust :
    (∀ f, 0 ≤ (load_study_time f).1)
    ∧ (load_study_time .missing).1 = 0
    ∧ (load_study_time .corrupt).1 = 0
    ∧ (∀ m, (load_study_time (.data (some .badstr) m)).1 = 0)
    ∧ (∀ m, (load_study_time (.data (some .null) m)).1 = 0)
    ∧ (load_study_time (.data none (some .badstr))).1 = 0
    ∧ (load_study_time (.data none (some .null))).1 = 0
    ∧ (∀ q : ℚ, q < 0 → ∀ m,
        (load_study_time (.data (some (.num q)) m)).1 = 0)
    ∧ (∀ q : ℚ, q < 0 →
        (load_study_time (.data none (some (.num q)))).1 = 0) := by
  have hneg : ∀ q : ℚ, q < 0 → pyInt q ≤ 0 := by
    intro q hq
    unfold pyInt
    split
    · next h => exact absurd h (not_le.mpr hq)
    · rw [Int.ceil_le]
      exact_mod_cast hq.le
  refine ⟨load_study_time_nonneg, rfl, rfl, ?_, ?_, ?_, ?_, ?_, ?_⟩
  · intro m; simp [load_study_time, coerceInt]
  · intro m; simp [load_study_time, coerceInt]
  · simp [load_study_time, save_study_time, coerceInt]
  · simp [load_study_time, save_study_time, coerceInt]
  · intro q hq m
    have := hneg q hq
    simp only [load_study_time, coerceInt]
    omega
  · intro q hq
    have := hneg q hq
    simp only [load_study_time, coerceInt]
    omega

/-- C7 witness: a negative stored seconds value loads as 0. -/
theorem load_robust_witness :
    (-3 : ℚ) < 0
    ∧ (load_study_time (.data (some (.num (-3))) none)).1 = 0 :=
  ⟨by norm_num, load_robust.2.2.2.2.2.2.2.1 (-3) (by norm_num) none⟩

theorem complete_task_db_mem_eq (now task_id : Int) (store : List Task)
    (t : Task) (ht : t ∈ store) (h : t.id = task_id) :
    { t with completed := true, completed_at := some now }
      ∈ complete_task_db now task_id store := by
  have hm := List.mem_map_of_mem
    (fun u => if u.id = task_id
      then { u with completed := true, completed_at := some now } else u) ht
  simpa [complete_task_db, h] using hm

theorem complete_task_db_mem_ne (now task_id : Int) (store : List Task)
    (t : Task) (ht : t ∈ store) (h : t.id ≠ task_id) :
    t ∈ complete_task_db now task_id store := by
  have hm := List.mem_map_of_mem
    (fun u => if u.id = task_id
      then { u with completed := true, completed_at := some now } else u) ht
  simpa [complete_task_db, h] using hm

theorem handle_recurring_mem (now : Int) (store : List Task) (row t : Task)
    (ht : t ∈ store) : t ∈ handle_recurring now store row := by
  unfold handle_recurring
  split
  · exact ht
  · exact List.mem_append_left _ ht

/-- C2 counterexample: invoking the complete operation on a task whose
completed flag is already true does not leave completedAt unchanged — it
overwrites it with the new time (here the stored 5 becomes 9). -/
theorem complete_overwrites_completedAt :
    doneTask.completed = true
    ∧ doneTask.completed_at = some 5
    ∧ (complete_task_db 9 1 [doneTask]).map Task.completed_at
        = [some 9] := by
  refine ⟨rfl, rfl, ?_⟩
  rfl

/-- C2 (amended): the complete operation sets completed := true and
completedAt := the current time on every store row whose id matches,
regardless of the row's previous completed flag — so re-completing an
already-completed task overwrites its completedAt with the new time;
rows with a different id are unchanged. -/
theorem complete_task_db_spec (now task_id : Int) (store : List Task)
    (t : Task) (ht : t ∈ store) :
    (t.id = task_id →
      { t with completed := true, completed_at := some now }
        ∈ complete_task_db now task_id store)
    ∧ (t.id ≠ task_id → t ∈ complete_task_db now task_id store) :=
  ⟨complete_task_db_mem_eq now task_id store t ht,
   complete_task_db_mem_ne now task_id store t ht⟩

/-- C2 witness: the amended behaviour at a concrete already-completed
task. -/
theorem complete_task_db_spec_witness :
    { doneTask with completed := true, completed_at := some (9 : Int) }
      ∈ complete_task_db 9 1 [doneTask] :=
  (complete_task_db_spec 9 1 [doneTask] doneTask (by simp) ).1 rfl

/-- C3 counterexample: completing a recurring task whose stored due date
fails to parse still creates a successor task (with no due date) — the
one-row store becomes a two-row store — refuting that no successor is
created on a computation failure. -/
theorem recurring_bad_due_still_creates :
    complete_task 0 [badDueTask] badDueTask
      = [{ badDueTask with completed := true, completed_at := some 0 },
         { id := 2, title := "water plants", category := "Home",
           completed := false, duedate := none, subtasks := "",
           started_at := some 0, completed_at := none,
           priority := "Medium", tags := "", recurring := .daily,
           pomodoros := 0, last_pomodoro_at := none }] := by
  rfl

/-- C3 (amended): when the successor due-date computation fails (the
stored due date does not parse), the completion of the original task
still succeeds, but a successor IS created rather than skipped: it is
cloned from the original with no due date. -/
theorem recurring_failure_spec (now : Int) (store : List Task)
    (row : Task) (hrec : row.recurring ≠ .null)
    (hdue : row.duedate = some .bad) :
    complete_task now store row
      = complete_task_db now row.id store
        ++ [successorOf now (complete_task_db now row.id store) row none]
    ∧ (row ∈ store →
        { row with completed := true, completed_at := some now }
          ∈ complete_task now store row) := by
  constructor
  · unfold complete_task handle_recurring
    rw [if_neg hrec, hdue]
    simp [next_due, add_task, successorOf]
  · intro hmem
    exact handle_recurring_mem now _ row _
      (complete_task_db_mem_eq now row.id store row hmem rfl)

/-- C3 witness: the amended behaviour at a concrete bad-due-date task. -/
theorem recurring_failure_spec_witness :
    complete_task 0 [badDueTask] badDueTask
      = complete_task_db 0 badDueTask.id [badDueTask]
        ++ [successorOf 0 (complete_task_db 0 badDueTask.id [badDueTask])
              badDueTask none] :=
  (recurring_failure_spec 0 [badDueTask] badDueTask (by decide) rfl).1

/-- C4: completing a task with recurring = Daily and parseable due date
D creates exactly one new task, appended to the store, whose due date is
D plus one day (D plus seven days for Weekly; now plus the interval when
the original had no due date), cloning title, category, subtasks,
priority, tags and recurrence with completed = false and pomodoros = 0
(the shape of `successorOf`); the original row is completed in place,
keeping completed = true and its original due date. -/
theorem recurring_successor_spec (now : Int) (store : List Task)
    (row : Task) (d : Int) (hrow : row ∈ store) :
    (row.recurring = .daily → row.duedate = some (.good d) →
      complete_task now store row
        = complete_task_db now row.id store
          ++ [successorOf now (complete_task_db now row.id store) row
                (some (.good (d + 86400)))])
    ∧ (row.recurring = .weekly → row.duedate = some (.good d) →
      complete_task now store row
        = complete_task_db now row.id store
          ++ [successorOf now (complete_task_db now row.id store) row
                (some (.good (d + 604800)))])
    ∧ (row.recurring = .daily → row.duedate = none →
      complete_task now store row
        = complete_task_db now row.id store
          ++ [successorOf now (complete_task_db now row.id store) row
                (some (.good (now + 86400)))])
    ∧ (row.recurring = .weekly → row.duedate = none →
      complete_task now store row
        = complete_task_db now row.id store
          ++ [successorOf now (complete_task_db now row.id store) row
                (some (.good (now + 604800)))])
    ∧ (row.recurring ≠ .null →
        (complete_task now store row).length = store.length + 1)
    ∧ (∀ st dd, (successorOf now st row dd).completed = false
        ∧ (successorOf now st row dd).pomodoros = 0
        ∧ (successorOf now st row dd).title = row.title
        ∧ (successorOf now st row dd).category = row.category
        ∧ (successorOf now st row dd).subtasks = row.subtasks
        ∧ (successorOf now st row dd).priority = row.priority
        ∧ (successorOf now st row dd).tags = row.tags
        ∧ (successorOf now st row dd).recurring = row.recurring
        ∧ (successorOf now st row dd).duedate = dd)
    ∧ (row.recurring ≠ .null →
        { row with completed := true, completed_at := some now }
          ∈ complete_task now store row)
    ∧ ({ row with
          completed := true,
          completed_at := some now }).duedate = row.duedate := by
  refine ⟨?_, ?_, ?_, ?_, ?_, ?_, ?_, rfl⟩
  · intro hr hd
    unfold complete_task handle_recurring
    rw [if_neg (by rw [hr]; decide), hd]
    simp [next_due, add_task, successorOf, hr]
  · intro hr hd
    unfold complete_task handle_recurring
    rw [if_neg (by rw [hr]; decide), hd]
    simp [next_due, add_task, successorOf, hr]
  · intro hr hd
    unfold complete_task handle_recurring
    rw [if_neg (by rw [hr]; decide), hd]
    simp [next_due, add_task, successorOf, hr]
  · intro hr hd
    unfold complete_task handle_recurring
    rw [if_neg (by rw [hr]; decide), hd]
    simp [next_due, add_task, successorOf, hr]
  · intro hrec
    unfold complete_task handle_recurring
    rw [if_neg hrec]
    simp [add_task, complete_task_db]
  · intro st dd
    exact ⟨rfl, rfl, rfl, rfl, rfl, rfl, rfl, rfl, rfl⟩
  · intro hrec
    exact handle_recurring_mem now _ row _
      (complete_task_db_mem_eq now row.id store row hrow rfl)

/-- C4 witness: the Daily case at a concrete task with due date 100; the
successor due date is 100 + 86400. -/
theorem recurring_successor_spec_witness :
    complete_task 7 [dailyTask] dailyTask
      = complete_task_db 7 dailyTask.id [dailyTask]
        ++ [successorOf 7 (complete_task_db 7 dailyTask.id [dailyTask])
              dailyTask (some (.good (100 + 86400)))] :=
  (recurring_successor_spec 7 [dailyTask] dailyTask 100 (by simp)).1
    rfl rfl

theorem handle_phase_end_focus (cfg : Settings) (now : ℚ) (s : PState)
    (h : s.phase = .Focus) :
    ((handle_phase_end cfg now s).1).completed_focus_count
        = s.completed_focus_count + 1
    ∧ ((handle_phase_end cfg now s).1).phase
        = (if (s.completed_focus_count + 1) % cfg.long_break_every = 0
           then Phase.LongBreak else Phase.ShortBreak) := by
  rcases hs : s.session_start_time with _ | t0 <;>
    simp only [handle_phase_end, h, hs, if_true, reduceIte] <;>
    constructor <;>
    first
      | rfl
      | (simp only [reset_phase_duration]
         split <;> simp)

theorem handle_phase_end_break (cfg : Settings) (now : ℚ) (s : PState)
    (h : s.phase ≠ .Focus) :
    ((handle_phase_end cfg now s).1).completed_focus_count
        = s.completed_focus_count
    ∧ ((handle_phase_end cfg now s).1).phase = Phase.Focus := by
  simp [handle_phase_end, if_neg h, reset_phase_duration]

theorem runEnds_even (cfg : Settings) (f : StudyFile) (times : Nat → ℚ) :
    ∀ k : Nat,
      (runEnds cfg times (initState cfg f) (2 * k)).phase = Phase.Focus
      ∧ (runEnds cfg times (initState cfg f) (2 * k)).completed_focus_count
          = (k : Int) := by
  intro k
  induction k with
  | zero => exact ⟨rfl, rfl⟩
  | succ n ih =>
      have hmid : runEnds cfg times (initState cfg f) (2 * n + 1)
          = (handle_phase_end cfg (times (2 * n))
              (runEnds cfg times (initState cfg f) (2 * n))).1 := rfl
      have hfoc := handle_phase_end_focus cfg (times (2 * n))
        (runEnds cfg times (initState cfg f) (2 * n)) ih.1
      have hnf : (runEnds cfg times (initState cfg f) (2 * n + 1)).phase
          ≠ Phase.Focus := by
        rw [hmid, hfoc.2]
        split <;> simp
      have h21 : 2 * (n + 1) = (2 * n + 1) + 1 := by ring
      have hstep : runEnds cfg times (initState cfg f) (2 * (n + 1))
          = (handle_phase_end cfg (times (2 * n + 1))
              (runEnds cfg times (initState cfg f) (2 * n + 1))).1 := by
        rw [h21]
        rfl
      have hbrk := handle_phase_end_break cfg (times (2 * n + 1))
        (runEnds cfg times (initState cfg f) (2 * n + 1)) hnf
      refine ⟨by rw [hstep]; exact hbrk.2, ?_⟩
      rw [hstep, hbrk.1, hmid, hfoc.1, ih.2]
      push_cast
      ring

/-- C1: from a freshly constructed engine with cadence N ≥ 1, running
with no reset and no manual phase switch, the phase entered after the
k-th Focus-phase end (the (2k-1)-th phase end of the alternating run) is
LongBreak exactly when k mod N = 0 and ShortBreak otherwise, and the
phase entered after every break-phase end (the (2k)-th phase end) is
Focus. -/
theorem long_break_cadence (cfg : Settings) (f : StudyFile)
    (times : Nat → ℚ) (hN : 1 ≤ cfg.long_break_every) (k : Nat)
    (hk : 1 ≤ k) :
    (runEnds cfg times (initState cfg f) (2 * k - 1)).phase
      = (if (k : Int) % cfg.long_break_every = 0 then Phase.LongBreak
         else Phase.ShortBreak)
    ∧ (runEnds cfg times (initState cfg f) (2 * k)).phase
      = Phase.Focus := by
  obtain ⟨m, rfl⟩ : ∃ m, k = m + 1 := ⟨k - 1, by omega⟩
  have hev := runEnds_even cfg f times m
  have hfoc := handle_phase_end_focus cfg (times (2 * m))
    (runEnds cfg times (initState cfg f) (2 * m)) hev.1
  constructor
  · have heq : 2 * (m + 1) - 1 = 2 * m + 1 := by omega
    rw [heq]
    have hmid : runEnds cfg times (initState cfg f) (2 * m + 1)
        = (handle_phase_end cfg (times (2 * m))
            (runEnds cfg times (initState cfg f) (2 * m))).1 := rfl
    rw [hmid, hfoc.2, hev.2]
    push_cast
    ring_nf
  · exact (runEnds_even cfg f times (m + 1)).1

/-- C1 witness: with the default cadence 4, the 4th Focus end (7th phase
end) is followed by LongBreak and the break after it by Focus. -/
theorem long_break_cadence_witness :
    (runEnds defaultSettings (fun _ => 0)
        (initState defaultSettings .missing) (2 * 4 - 1)).phase
      = (if ((4 : Nat) : Int) % defaultSettings.long_break_every = 0
         then Phase.LongBreak else Phase.ShortBreak)
    ∧ (runEnds defaultSettings (fun _ => 0)
        (initState defaultSettings .missing) (2 * 4)).phase
      = Phase.Focus :=
  long_break_cadence defaultSettings .missing (fun _ => 0) (by decide) 4
    (by decide)

theorem flushFocusWindow_frame (now : ℚ) (s : PState) :
    (flushFocusWindow now s).phase = s.phase
    ∧ (flushFocusWindow now s).remaining = s.remaining
    ∧ (flushFocusWindow now s).is_running = s.is_running
    ∧ (flushFocusWindow now s).attached_task_id = s.attached_task_id
    ∧ (flushFocusWindow now s).completed_focus_count
        = s.completed_focus_count := by
  rcases hs : s.session_start_time with _ | t0
  · simp [flushFocusWindow, hs]
  · simp only [flushFocusWindow, hs]
    split_ifs <;> simp

theorem flushFocusWindow_open (now t0 : ℚ) (s : PState)
    (hph : s.phase = .Focus) (hw : s.session_start_time = some t0)
    (hp : 0 ≤ s.total_session_time) (ht : t0 ≤ now) :
    studyCounter (flushFocusWindow now s)
      = studyCounter s + pyInt (s.total_session_time + (now - t0))
    ∧ (flushFocusWindow now s).total_session_time = 0
    ∧ (flushFocusWindow now s).session_start_time = none := by
  have htot : 0 ≤ s.total_session_time + (now - t0) := by linarith
  simp only [flushFocusWindow, hw, hph, reduceIte]
  split_ifs with hpos
  · refine ⟨?_, rfl, rfl⟩
    simpa [studyCounter] using
      counter_after_add s.file
        (pyInt (s.total_session_time + (now - t0))) (pyInt_nonneg htot)
  · have h0 : s.total_session_time + (now - t0) = 0 :=
      le_antisymm (not_lt.mp hpos) htot
    refine ⟨?_, h0, rfl⟩
    rw [h0]
    simp [studyCounter, pyInt]

theorem pause_flush (now t0 : ℚ) (s : PState) (hrun : s.is_running = true)
    (hph : s.phase = .Focus) (hw : s.session_start_time = some t0)
    (hp : 0 ≤ s.total_session_time) (ht : t0 ≤ now) :
    studyCounter (pause now s)
      = studyCounter s + pyInt (s.total_session_time + (now - t0))
    ∧ (pause now s).total_session_time = 0
    ∧ (pause now s).session_start_time = none := by
  unfold pause
  rw [hrun]
  simp only [reduceIte]
  exact flushFocusWindow_open now t0 { s with is_running := false }
    hph hw hp ht

theorem closeFocusWindow_open (now t0 : ℚ) (s : PState)
    (hph : s.phase = .Focus) (hw : s.session_start_time = some t0) :
    closeFocusWindow now s
      = { s with
            total_session_time := s.total_session_time + (now - t0),
            session_start_time := none } := by
  simp only [closeFocusWindow, hw, hph, reduceIte]

theorem closeFocusWindow_frame (now : ℚ) (s : PState) :
    (closeFocusWindow now s).phase = s.phase
    ∧ (closeFocusWindow now s).remaining = s.remaining
    ∧ (closeFocusWindow now s).is_running = s.is_running
    ∧ (closeFocusWindow now s).attached_task_id = s.attached_task_id
    ∧ (closeFocusWindow now s).completed_focus_count
        = s.completed_focus_count
    ∧ (closeFocusWindow now s).file = s.file := by
  rcases hs : s.session_start_time with _ | t0
  · simp [closeFocusWindow, hs]
  · simp only [closeFocusWindow, hs]
    split_ifs <;> simp

theorem flushPending_spec (s : PState) (hp : 0 ≤ s.total_session_time) :
    studyCounter (flushPending s)
      = studyCounter s + pyInt s.total_session_time
    ∧ (flushPending s).total_session_time = 0
    ∧ (flushPending s).session_start_time = s.session_start_time := by
  unfold flushPending
  split_ifs with hpos
  · refine ⟨?_, rfl, rfl⟩
    simpa [studyCounter] using
      counter_after_add s.file (pyInt s.total_session_time)
        (pyInt_nonneg hp)
  · have h0 : s.total_session_time = 0 := le_antisymm (not_lt.mp hpos) hp
    refine ⟨?_, h0, rfl⟩
    rw [h0]
    simp [studyCounter, pyInt]

theorem flushPending_frame (s : PState) :
    (flushPending s).phase = s.phase
    ∧ (flushPending s).remaining = s.remaining
    ∧ (flushPending s).is_running = s.is_running
    ∧ (flushPending s).attached_task_id = s.attached_task_id
    ∧ (flushPending s).completed_focus_count = s.completed_focus_count
    ∧ (flushPending s).session_start_time = s.session_start_time := by
  unfold flushPending
  split_ifs <;> simp

theorem pause_no_window (now : ℚ) (s : PState)
    (h : s.session_start_time = none) :
    (pause now s).file = s.file
    ∧ (pause now s).total_session_time = s.total_session_time
    ∧ (pause now s).session_start_time = none := by
  unfold pause flushFocusWindow
  split_ifs <;> simp [h]

theorem pause_frame (now : ℚ) (s : PState) :
    (pause now s).phase = s.phase
    ∧ (pause now s).remaining = s.remaining
    ∧ (pause now s).attached_task_id = s.attached_task_id
    ∧ (pause now s).completed_focus_count = s.completed_focus_count := by
  unfold pause
  split_ifs with h
  · have hf := flushFocusWindow_frame now { s with is_running := false }
    exact ⟨hf.1, hf.2.1, hf.2.2.2.1, hf.2.2.2.2⟩
  · exact ⟨rfl, rfl, rfl, rfl⟩

theorem pause_not_running (now : ℚ) (s : PState) :
    (pause now s).is_running = false := by
  unfold pause
  split_ifs with h
  · exact (flushFocusWindow_frame now _).2.2.1
  · simpa using h

theorem reset_flush (cfg : Settings) (now t0 : ℚ) (s : PState)
    (hph : s.phase = Phase.Focus) (hw : s.session_start_time = some t0)
    (hp : 0 ≤ s.total_session_time) (ht : t0 ≤ now) :
    studyCounter ((reset cfg now s).1)
      = studyCounter s + pyInt (s.total_session_time + (now - t0))
    ∧ ((reset cfg now s).1).total_session_time = 0
    ∧ ((reset cfg now s).1).session_start_time = none := by
  have hcl := closeFocusWindow_open now t0 s hph hw
  have hpC : 0 ≤ (closeFocusWindow now s).total_session_time := by
    rw [hcl]
    show 0 ≤ s.total_session_time + (now - t0)
    linarith
  have hfl := flushPending_spec (closeFocusWindow now s) hpC
  have hsess :
      (flushPending (closeFocusWindow now s)).session_start_time
        = none := by
    rw [(flushPending_frame (closeFocusWindow now s)).2.2.2.2.2, hcl]
  have hpse := pause_no_window now
    (flushPending (closeFocusWindow now s)) hsess
  refine ⟨?_, ?_, ?_⟩
  · show studyCounter (pause now (flushPending (closeFocusWindow now s)))
        = _
    have h1 : studyCounter
          (pause now (flushPending (closeFocusWindow now s)))
        = studyCounter (flushPending (closeFocusWindow now s)) := by
      unfold studyCounter
      rw [hpse.1]
    have h2 : studyCounter (closeFocusWindow now s) = studyCounter s := by
      unfold studyCounter
      rw [(closeFocusWindow_frame now s).2.2.2.2.2]
    rw [h1, hfl.1, h2, hcl]
  · show (pause now
        (flushPending (closeFocusWindow now s))).total_session_time = 0
    rw [hpse.2.1]
    exact hfl.2.1
  · show (pause now
        (flushPending (closeFocusWindow now s))).session_start_time = none
    exact hpse.2.2

/-- C8: in every engine state, reset forces phase Focus with the full
configured focus duration, stops the timer, emits exactly the
phase-change notification, and leaves attachedTaskId unchanged; and
whenever a Focus accrual window is open (with non-negative pending time
and the window opened no later than now) it flushes the truncated
accrued seconds to the study-time counter, zeroing the pending amount
and closing the window. -/
theorem reset_spec (cfg : Settings) (now : ℚ) (s : PState) :
    ((reset cfg now s).1).phase = Phase.Focus
    ∧ ((reset cfg now s).1).remaining = cfg.focus_secs
    ∧ ((reset cfg now s).1).is_running = false
    ∧ ((reset cfg now s).1).attached_task_id = s.attached_task_id
    ∧ (reset cfg now s).2
        = [Event.phaseChange Phase.Focus cfg.focus_secs]
    ∧ (∀ t0, s.phase = Phase.Focus → s.session_start_time = some t0 →
        0 ≤ s.total_session_time → t0 ≤ now →
        studyCounter ((reset cfg now s).1)
            = studyCounter s
              + pyInt (s.total_session_time + (now - t0))
        ∧ ((reset cfg now s).1).total_session_time = 0
        ∧ ((reset cfg now s).1).session_start_time = none) := by
  refine ⟨rfl, rfl, ?_, ?_, rfl, ?_⟩
  · exact pause_not_running now _
  · exact ((pause_frame now _).2.2.1).trans
      (((flushPending_frame _).2.2.2.1).trans
        ((closeFocusWindow_frame now s).2.2.2.1))
  · intro t0 hph hw hp ht
    exact reset_flush cfg now t0 s hph hw hp ht

/-- C8 witness: reset on a concrete running Focus state with an open
window at time 0 and pending 1/2 s, evaluated at now = 7/2. -/
theorem reset_spec_witness :
    studyCounter ((reset defaultSettings (7/2) runningFocus).1)
      = studyCounter runningFocus
        + pyInt (runningFocus.total_session_time + ((7/2 : ℚ) - 0))
    ∧ ((reset defaultSettings (7/2) runningFocus).1).total_session_time
        = 0
    ∧ ((reset defaultSettings (7/2)
          runningFocus).1).session_start_time = none :=
  (reset_spec defaultSettings (7/2) runningFocus).2.2.2.2.2 0 rfl rfl
    (by norm_num [runningFocus]) (by norm_num)

/-- C9: completedFocusCount is never changed by start, pause, reset,
switchPhase, attachTask or saveCurrentSession; it is monotonically
non-decreasing under tick, and tick increments it (by exactly one)
precisely at a Focus phase end — so the long-break cadence continues
from the accumulated count after a reset or a manual phase switch. -/
theorem focus_count_monotone (cfg : Settings) (now : ℚ) (s : PState) :
    (start cfg now s).completed_focus_count = s.completed_focus_count
    ∧ (pause now s).completed_focus_count = s.completed_focus_count
    ∧ ((reset cfg now s).1).completed_focus_count
        = s.completed_focus_count
    ∧ (∀ target,
        ((switch_phase cfg now target s).1).completed_focus_count
          = s.completed_focus_count)
    ∧ (∀ i, (attach_task s i).completed_focus_count
        = s.completed_focus_count)
    ∧ (save_current_session now s).completed_focus_count
        = s.completed_focus_count
    ∧ s.completed_focus_count
        ≤ ((tick cfg now s).1).completed_focus_count
    ∧ (0 < s.remaining →
        ((tick cfg now s).1).completed_focus_count
          = s.completed_focus_count)
    ∧ (s.remaining ≤ 0 → s.phase = Phase.Focus →
        ((tick cfg now s).1).completed_focus_count
          = s.completed_focus_count + 1)
    ∧ (s.remaining ≤ 0 → s.phase ≠ Phase.Focus →
        ((tick cfg now s).1).completed_focus_count
          = s.completed_focus_count) := by
  refine ⟨?_, ?_, ?_, ?_, ?_, ?_, ?_, ?_, ?_, ?_⟩
  · simp only [start, reset_phase_duration]
    split_ifs <;> rfl
  · exact (pause_frame now s).2.2.2
  · exact ((pause_frame now _).2.2.2).trans
      (((flushPending_frame _).2.2.2.2.1).trans
        ((closeFocusWindow_frame now s).2.2.2.2.1))
  · intro target
    simp only [switch_phase, reset_phase_duration]
    split_ifs <;> exact (flushFocusWindow_frame now s).2.2.2.2
  · intro i
    rfl
  · exact (flushFocusWindow_frame now s).2.2.2.2
  · by_cases hr : s.remaining ≤ 0
    · by_cases hph : s.phase = Phase.Focus
      · have h := (handle_phase_end_focus cfg now s hph).1
        unfold tick
        rw [if_pos hr, h]
        omega
      · have h := (handle_phase_end_break cfg now s hph).1
        unfold tick
        rw [if_pos hr, h]
    · unfold tick
      rw [if_neg hr]
  · intro hr
    unfold tick
    rw [if_neg (by omega)]
  · intro hr hph
    unfold tick
    rw [if_pos hr]
    exact (handle_phase_end_focus cfg now s hph).1
  · intro hr hph
    unfold tick
    rw [if_pos hr]
    exact (handle_phase_end_break cfg now s hph).1

/-- C9 witness: a tick at a spent Focus countdown increments the count
from 2 to 3, while reset leaves it unchanged. -/
theorem focus_count_monotone_witness :
    ((tick defaultSettings 0 spentFocus).1).completed_focus_count
      = spentFocus.completed_focus_count + 1
    ∧ ((reset defaultSettings 0 spentFocus).1).completed_focus_count
      = spentFocus.completed_focus_count :=
  ⟨(focus_count_monotone defaultSettings 0
        spentFocus).2.2.2.2.2.2.2.2.1 (by decide) rfl,
   (focus_count_monotone defaultSettings 0 spentFocus).2.2.1⟩

/-- C10: with a Focus accrual window open at t0 (non-negative pending
time, window opened no later than now, engine running), every flush
site — pause, saveCurrentSession, reset, switchPhase and the Focus
phase end — adds exactly the integer truncation (the floor, the total
being non-negative) of the accrued total to the durable study-time
counter and zeroes the pending amount; the committed value lies
strictly within one second below the exact total. -/
theorem flush_truncation (cfg : Settings) (now t0 : ℚ) (s : PState)
    (hph : s.phase = Phase.Focus) (hw : s.session_start_time = some t0)
    (hrun : s.is_running = true) (hp : 0 ≤ s.total_session_time)
    (ht : t0 ≤ now) :
    (studyCounter (pause now s)
        = studyCounter s + pyInt (s.total_session_time + (now - t0))
      ∧ (pause now s).total_session_time = 0)
    ∧ (studyCounter (save_current_session now s)
        = studyCounter s + pyInt (s.total_session_time + (now - t0))
      ∧ (save_current_session now s).total_session_time = 0)
    ∧ (studyCounter ((reset cfg now s).1)
        = studyCounter s + pyInt (s.total_session_time + (now - t0))
      ∧ ((reset cfg now s).1).total_session_time = 0)
    ∧ (∀ target,
        studyCounter ((switch_phase cfg now target s).1)
          = studyCounter s + pyInt (s.total_session_time + (now - t0))
        ∧ ((switch_phase cfg now target s).1).total_session_time = 0)
    ∧ (studyCounter ((handle_phase_end cfg now s).1)
        = studyCounter s + pyInt (s.total_session_time + (now - t0))
      ∧ ((handle_phase_end cfg now s).1).total_session_time = 0)
    ∧ (s.total_session_time + (now - t0) - 1
        < ((pyInt (s.total_session_time + (now - t0)) : Int) : ℚ)
      ∧ ((pyInt (s.total_session_time + (now - t0)) : Int) : ℚ)
        ≤ s.total_session_time + (now - t0)) := by
  have htot : 0 ≤ s.total_session_time + (now - t0) := by linarith
  have hfo := flushFocusWindow_open now t0 s hph hw hp ht
  have hpf := pause_flush now t0 s hrun hph hw hp ht
  refine ⟨⟨hpf.1, hpf.2.1⟩, ⟨hfo.1, hfo.2.1⟩, ?_, ?_, ?_, ?_⟩
  · have h := reset_flush cfg now t0 s hph hw hp ht
    exact ⟨h.1, h.2.1⟩
  · intro target
    constructor
    · simp only [switch_phase, reset_phase_duration]
      split_ifs <;> exact hfo.1
    · simp only [switch_phase, reset_phase_duration]
      split_ifs <;> exact hfo.2.1
  · have hadd := counter_after_add s.file
      (pyInt (s.total_session_time + (now - t0))) (pyInt_nonneg htot)
    constructor
    · simp only [handle_phase_end, hph, hw, reduceIte]
      split_ifs <;>
        simpa [studyCounter, reset_phase_duration] using hadd
    · simp only [handle_phase_end, hph, hw, reduceIte]
      split_ifs <;> simp [reset_phase_duration]
  · constructor
    · rw [pyInt, if_pos htot]
      exact Int.sub_one_lt_floor _
    · rw [pyInt, if_pos htot]
      exact Int.floor_le _

/-- C10 witness: pausing the concrete running Focus state at
now = 7/2 commits the truncation of 1/2 + 7/2 and zeroes the pending
amount. -/
theorem flush_truncation_witness :
    studyCounter (pause (7/2) runningFocus)
      = studyCounter runningFocus
        + pyInt (runningFocus.total_session_time + ((7/2 : ℚ) - 0))
    ∧ (pause (7/2) runningFocus).total_session_time = 0 :=
  (flush_truncation defaultSettings (7/2) 0 runningFocus rfl rfl rfl
    (by norm_num [runningFocus]) (by norm_num)).1

end Pomodoro
